import Mathlib

/-!
Verification development for the LobsterFoundry agent session core
(`skills/lobsterfoundry-pax/scripts/lobster_agent.py`, class `LobsterFoundryAgent`).

The Python class keeps its live-channel session state in instance fields
(`credentials`, `ws`, `connected`, `avatar`, `wallet`, `license`, `world_state`,
`_ws_thread`, `_running`).  We embed that state as an explicit record and each
method as a pure function from state (plus the data the method reads from the
outside world) to state and results.  Python `dict` payloads whose keys the code
inspects (`avatar`, the `data` dict of `ACTION_RESULT`) are embedded as records
of optional fields (a `none` field is an absent key); payloads the code stores
without inspecting (`wallet`, `license`, the `WORLD_STATE` snapshot) are carried
as opaque JSON-like values.  A Python exception escaping a method is modelled as
an `Option PyError` alongside the state, with all field assignments executed
before the raising statement kept, matching Python's mutation order.
-/

/-- A JSON-like value stored opaquely in the mirror (wallet, license, world
snapshot).  The session core never inspects these, it only stores and returns
them, so a small carrier with decidable equality suffices. -/
inductive JVal where
  | null
  | num (n : Int)
  | str (s : String)
  deriving DecidableEq, Repr

/-- The avatar dictionary pushed by the server.  The code reads or writes
exactly the keys `x`, `y`, `name`, `state`; a `none` field is an absent key. -/
structure Avatar where
  x : Option Int := none
  y : Option Int := none
  name : Option String := none
  state : Option String := none
  deriving DecidableEq, Repr

/-- The credentials dictionary persisted by `save_credentials` and loaded by
`load_credentials`. -/
structure Credentials where
  api_key : String
  bot_id : String
  signer_id : String
  name : String
  server : String
  registered_at : Nat
  deriving DecidableEq, Repr

/-- The mutable instance state of `LobsterFoundryAgent` (see `__init__`):
`ws` records whether `self.ws` holds a `WebSocketApp`, `ws_thread` whether
`self._ws_thread` holds a spawned thread, `running` is `self._running`, and
`connected` is `self.connected` (true exactly in the live-connected phase).
The defaults are the `__init__` values. -/
structure AgentState where
  credentials : Option Credentials := none
  ws : Bool := false
  connected : Bool := false
  avatar : Option Avatar := none
  wallet : Option JVal := none
  license : Option JVal := none
  world_state : Option JVal := none
  ws_thread : Bool := false
  running : Bool := false
  deriving DecidableEq, Repr

/-- A Python exception escaping the message handler. -/
inductive PyError where
  | attributeError
  | typeError
  deriving DecidableEq, Repr

/-- A decoded inbound frame, as the flat JSON object `_handle_ws_message`
receives.  `type` is `data.get('type')`; `avatar`, `wallet`, `license` are the
`AUTH_SUCCESS` payload keys; `success` is the truthiness of
`data.get('success')` and `data_x`/`data_y`/`data_state` are the keys present in
`data.get('data', {})` of an `ACTION_RESULT`; `state` is the `WORLD_STATE`
snapshot; `event_type`/`event_id` are the `LEDGER_EVENT` fields; `error` is the
`AUTH_FAILED` reason.  A `none` field is an absent key. -/
structure Frame where
  type : Option String := none
  avatar : Option Avatar := none
  wallet : Option JVal := none
  license : Option JVal := none
  error : Option String := none
  success : Bool := false
  data_x : Option Int := none
  data_y : Option Int := none
  data_state : Option String := none
  state : Option JVal := none
  event_type : Option String := none
  event_id : Option String := none
  deriving DecidableEq, Repr

/-- Embedding of `LobsterFoundryAgent._handle_ws_message`.  Returns the updated
state together with the Python exception escaping the handler, if any.

* `AUTH_SUCCESS`: sets `connected`, `avatar`, `wallet`, `license`, then the log
  line calls `self.avatar.get('name')`, which raises `AttributeError` when the
  payload had no `avatar` key (the assignments before it are kept).
* `AUTH_FAILED`: only prints; no state change.
* `ACTION_RESULT` with truthy `success`: for each of `x`, `y`, `state` present
  in the `data` dict, assigns `self.avatar[key]`; when `self.avatar` is `None`
  and such a key is present this item assignment raises `TypeError`.
* `WORLD_STATE`: stores `data.get('state')` wholesale.
* `AVATAR_UPDATE`: explicit no-op.
* `LEDGER_EVENT`: only prints; no state change.
* any other `type`: falls through the `elif` chain; no state change. -/
def handle_ws_message (s : AgentState) (f : Frame) : AgentState × Option PyError :=
  if f.type = some "AUTH_SUCCESS" then
    let s1 : AgentState :=
      { s with connected := true, avatar := f.avatar, wallet := f.wallet, license := f.license }
    match f.avatar with
    | none => (s1, some PyError.attributeError)
    | some _ => (s1, none)
  else if f.type = some "AUTH_FAILED" then
    (s, none)
  else if f.type = some "ACTION_RESULT" then
    if f.success then
      match s.avatar with
      | none =>
        if f.data_x.isSome || f.data_y.isSome || f.data_state.isSome then
          (s, some PyError.typeError)
        else (s, none)
      | some a =>
        let a1 : Avatar :=
          { a with
            x := match f.data_x with | some v => some v | none => a.x
            y := match f.data_y with | some v => some v | none => a.y
            state := match f.data_state with | some v => some v | none => a.state }
        ({ s with avatar := some a1 }, none)
    else (s, none)
  else if f.type = some "WORLD_STATE" then
    ({ s with world_state := f.state }, none)
  else if f.type = some "AVATAR_UPDATE" then
    (s, none)
  else if f.type = some "LEDGER_EVENT" then
    (s, none)
  else
    (s, none)

/-- An outbound frame sent with `ws.send(json.dumps(...))`. -/
structure OutFrame where
  type : String
  action : Option String := none
  payload : List (String × JVal) := []
  deriving DecidableEq, Repr

/-- A Python value that is a string or `None`, serialized into a payload. -/
def jopt (v : Option String) : JVal :=
  match v with
  | some s => JVal.str s
  | none => JVal.null

/-- Embedding of `LobsterFoundryAgent.move_to`: result pair and the frames sent
on the live channel. -/
def move_to (s : AgentState) (x y : Int) : (Bool × String) × List OutFrame :=
  if !s.connected then ((false, "Not connected"), [])
  else
    ((true, "Moving to (" ++ toString x ++ ", " ++ toString y ++ ")"),
      [{ type := "BOT_ACTION", action := some "MOVE",
         payload := [("x", JVal.num x), ("y", JVal.num y)] }])

/-- Embedding of `LobsterFoundryAgent.interact_with`. -/
def interact_with (s : AgentState) (stall_id building_id : Option String) :
    (Bool × String) × List OutFrame :=
  if !s.connected then ((false, "Not connected"), [])
  else
    ((true, "Interacting with " ++ (stall_id.getD (building_id.getD "None"))),
      [{ type := "BOT_ACTION", action := some "INTERACT",
         payload := [("stallId", jopt stall_id), ("buildingId", jopt building_id)] }])

/-- Embedding of `LobsterFoundryAgent.read_notices`. -/
def read_notices (s : AgentState) : (Bool × String) × List OutFrame :=
  if !s.connected then ((false, "Not connected"), [])
  else
    ((true, "Reading notices"),
      [{ type := "BOT_ACTION", action := some "READ",
         payload := [("targetId", JVal.str "notice_board")] }])

/-- Embedding of `LobsterFoundryAgent.accept_quest`. -/
def accept_quest (s : AgentState) (quest_id : String) : (Bool × String) × List OutFrame :=
  if !s.connected then ((false, "Not connected"), [])
  else
    ((true, "Accepting quest " ++ quest_id),
      [{ type := "BOT_ACTION", action := some "ACCEPT_QUEST",
         payload := [("questId", JVal.str quest_id)] }])

/-- Embedding of `LobsterFoundryAgent.celebrate`. -/
def celebrate (s : AgentState) : (Bool × String) × List OutFrame :=
  if !s.connected then ((false, "Not connected"), [])
  else
    ((true, "Celebrating!"),
      [{ type := "BOT_ACTION", action := some "CELEBRATE", payload := [] }])

/-- Embedding of `LobsterFoundryAgent.disconnect_websocket`: sets
`self._running = False`, closes the socket if present (the handle itself is not
cleared), and sets `self.connected = False`.  Total; never fails. -/
def disconnect_websocket (s : AgentState) : AgentState :=
  { s with running := false, connected := false }

/-- Embedding of the `on_close` callback registered in `connect_websocket`:
fires when the live channel closes; sets `self.connected = False` only. -/
def on_close (s : AgentState) : AgentState :=
  { s with connected := false }

/-- The guard of the `while self._running` loop in `_ws_run`: after
`run_forever` returns (the channel closed or errored), the loop sleeps one
second and calls `self.ws.run_forever()` again — a fresh connection attempt —
exactly when `self._running` is still true. -/
def ws_run_retries (s : AgentState) : Bool :=
  s.running

/-- Whether the `websocket-client` import at module load succeeded; modelled as
the library being installed. -/
def HAS_WEBSOCKET : Bool := true

/-- The background receive loop driving `on_message`: each decoded inbound
frame is handed to `_handle_ws_message` in receipt order (state mutations are
kept even for a frame on which the handler raises). -/
def handle_frames (s : AgentState) (fs : List Frame) : AgentState :=
  fs.foldl (fun st f => (handle_ws_message st f).1) s

/-- The `BOT_AUTH` frame the `on_open` callback sends as the first message
after channel open. -/
def bot_auth_frame (c : Credentials) : OutFrame :=
  { type := "BOT_AUTH", action := none,
    payload := [("botId", JVal.str c.bot_id), ("token", JVal.str c.api_key)] }

/-- Embedding of `LobsterFoundryAgent.connect_websocket`.  The frames the
server delivers during the bounded five-second wait (fifty 100 ms polls of
`self.connected`) are the `inbound` parameter, processed in order by the
background receive loop; the foreground then observes `self.connected`.
Returns the `(success, message)` pair, the state after the attempt, and the
frames sent.  On the timeout path the code only returns
`(False, "Connection timeout")`: `self._running` stays true, the spawned
thread keeps looping, and the socket is not closed. -/
def connect_websocket (s : AgentState) (inbound : List Frame) :
    (Bool × String) × AgentState × List OutFrame :=
  if !HAS_WEBSOCKET then ((false, "WebSocket library not installed"), s, [])
  else
    match s.credentials with
    | none => ((false, "Not registered"), s, [])
    | some c =>
      if s.connected then ((true, "Already connected"), s, [])
      else
        let s1 : AgentState := { s with ws := true, running := true, ws_thread := true }
        let s2 := handle_frames s1 inbound
        if s2.connected then ((true, "Connected"), s2, [bot_auth_frame c])
        else ((false, "Connection timeout"), s2, [bot_auth_frame c])

/-- Modelled from the spec: a connection attempt that times out is "treated as
failed and the channel is torn down" — tearing the channel down means the
background channel and its receive loop are stopped, i.e. `_running` is
cleared so the `_ws_run` loop exits. -/
def channel_torn_down (s : AgentState) : Bool :=
  !s.running

/-- Embedding of `LobsterFoundryAgent.load_credentials`: when the credentials
file exists (`stored` is the file's contents) it populates `self.credentials`
and returns true; otherwise returns false leaving state untouched. -/
def load_credentials (s : AgentState) (stored : Option Credentials) : Bool × AgentState :=
  match stored with
  | some c => (true, { s with credentials := some c })
  | none => (false, s)

/-- Embedding of `LobsterFoundryAgent.register`: on an ok server response it
saves and adopts the new credentials and returns true; otherwise false. -/
def register (s : AgentState) (regOk : Bool) (regCreds : Credentials) : Bool × AgentState :=
  if regOk then (true, { s with credentials := some regCreds })
  else (false, s)

/-- Embedding of `LobsterFoundryAgent.authenticate`: fails when no credentials
are held; on an ok auth response stores `result.get('assignedAvatar')`. -/
def authenticate (s : AgentState) (authOk : Bool) (assigned : Option Avatar) :
    Bool × AgentState :=
  match s.credentials with
  | none => (false, s)
  | some _ =>
    if authOk then (true, { s with avatar := assigned })
    else (false, s)

/-- Embedding of `LobsterFoundryAgent.get_status`: on an ok response stores the
wallet, license and avatar from the response. -/
def get_status (s : AgentState) (ok : Bool) (w l : Option JVal) (av : Option Avatar) :
    AgentState :=
  if ok then { s with wallet := w, license := l, avatar := av }
  else s

/-- The outside-world outcomes `ensure_connected` observes: the credentials
file contents, the registration and authentication call outcomes, the frames
delivered during the live-channel handshake wait, and the status call
outcome. -/
structure BootEnv where
  stored : Option Credentials
  regOk : Bool
  regCreds : Credentials
  regMsg : String
  authOk : Bool
  authAvatar : Option Avatar
  authMsg : String
  wsInbound : List Frame
  statusOk : Bool
  statusWallet : Option JVal
  statusLicense : Option JVal
  statusAvatar : Option Avatar
  statusCCZero : Bool

/-- Embedding of `LobsterFoundryAgent.ensure_connected`: load or register
credentials (registration failure is fatal), authenticate (failure is fatal),
attempt the live channel (failure only prints and continues with REST), then
query status and, when the wallet balance is zero, fire the idempotent
tutorial task — a request/response call with no local state effect. -/
def ensure_connected (s : AgentState) (env : BootEnv) : (Bool × String) × AgentState :=
  let p := load_credentials s env.stored
  let afterReg : Bool × AgentState :=
    if p.1 then (true, p.2)
    else register p.2 env.regOk env.regCreds
  if !afterReg.1 then ((false, "Registration failed: " ++ env.regMsg), afterReg.2)
  else
    let q := authenticate afterReg.2 env.authOk env.authAvatar
    if !q.1 then ((false, "Auth failed: " ++ env.authMsg), q.2)
    else
      let r := connect_websocket q.2 env.wsInbound
      let s4 :=
        get_status r.2.1 env.statusOk env.statusWallet env.statusLicense env.statusAvatar
      ((true, "Connected and ready"), s4)

/-- The handler never touches `_running` (only `disconnect_websocket` does). -/
theorem handle_ws_message_running (s : AgentState) (f : Frame) :
    ((handle_ws_message s f).1).running = s.running := by
  unfold handle_ws_message
  (repeat' split) <;> rfl

/-- The handler never touches the receive-loop thread handle. -/
theorem handle_ws_message_ws_thread (s : AgentState) (f : Frame) :
    ((handle_ws_message s f).1).ws_thread = s.ws_thread := by
  unfold handle_ws_message
  (repeat' split) <;> rfl

/-- Processing any frame sequence preserves `_running`. -/
theorem handle_frames_running (fs : List Frame) (s : AgentState) :
    (handle_frames s fs).running = s.running := by
  induction fs generalizing s with
  | nil => rfl
  | cons f fs ih =>
    have h : handle_frames s (f :: fs) = handle_frames ((handle_ws_message s f).1) fs := rfl
    rw [h, ih, handle_ws_message_running]

/-- Processing any frame sequence preserves the thread handle. -/
theorem handle_frames_ws_thread (fs : List Frame) (s : AgentState) :
    (handle_frames s fs).ws_thread = s.ws_thread := by
  induction fs generalizing s with
  | nil => rfl
  | cons f fs ih =>
    have h : handle_frames s (f :: fs) = handle_frames ((handle_ws_message s f).1) fs := rfl
    rw [h, ih, handle_ws_message_ws_thread]

/-- Concrete credentials used in witnesses. -/
def creds0 : Credentials :=
  { api_key := "key0", bot_id := "bot0", signer_id := "signer0",
    name := "Bot1", server := "http://localhost:5173", registered_at := 0 }

/-- Concrete avatar mirror: the spec's `{x:10, y:5, name:"Bot1"}` example. -/
def avatar0 : Avatar := { x := some 10, y := some 5, name := some "Bot1", state := none }

/-- A registered, REST-authenticated, not-yet-live state. -/
def sAuthed : AgentState := { credentials := some creds0, avatar := some avatar0 }

/-- A live-connected state with the receive loop running. -/
def sLive : AgentState :=
  { credentials := some creds0, ws := true, connected := true,
    avatar := some avatar0, running := true, ws_thread := true }

/-- The freshly constructed state (`__init__`): every mirror field unset. -/
def sFresh : AgentState := {}

/-- The spec's example result frame `{success:true, data:{x:12, y:5}}`. -/
def fMove : Frame :=
  { type := some "ACTION_RESULT", success := true, data_x := some 12, data_y := some 5 }

/-- An `AUTH_SUCCESS` frame carrying the spec's example payload. -/
def fAuthOk : Frame :=
  { type := some "AUTH_SUCCESS", avatar := some avatar0, wallet := some (JVal.num 0) }

/-- An `AUTH_SUCCESS` frame whose payload lacks the avatar key. -/
def fAuthNoAvatar : Frame := { type := some "AUTH_SUCCESS" }

/-- An `ACTION_RESULT` frame with truthy success and an `x` update. -/
def fActionX : Frame := { type := some "ACTION_RESULT", success := true, data_x := some 3 }

/-- An unrecognized frame kind, the spec's `{type:"FUTURE_EVENT"}` example. -/
def fFuture : Frame := { type := some "FUTURE_EVENT" }

/-- C1: for an inbound `ACTION_RESULT` frame handled while the avatar mirror is
populated, truthy `success` applies a partial merge — exactly the keys among
`x`, `y`, `state` present in the frame's `data` payload overwrite the
corresponding `Mirror.avatar` fields, every other avatar field (in particular
`name`) and all other state keeps its prior value, and no exception escapes —
while falsy `success` leaves the whole state, in particular `Mirror.avatar`,
unchanged. -/
theorem C1_action_result_partial_merge (s : AgentState) (a : Avatar) (f : Frame)
    (hav : s.avatar = some a) (hty : f.type = some "ACTION_RESULT") :
    (f.success = true →
      handle_ws_message s f =
        ({ s with avatar := some {
            x := if f.data_x.isSome then f.data_x else a.x,
            y := if f.data_y.isSome then f.data_y else a.y,
            name := a.name,
            state := if f.data_state.isSome then f.data_state else a.state } }, none)) ∧
    (f.success = false → handle_ws_message s f = (s, none)) := by
  unfold handle_ws_message
  rw [hty, hav]
  constructor
  · intro hs
    rw [hs]
    simp only [reduceIte]
    cases f.data_x <;> cases f.data_y <;> cases f.data_state <;> rfl
  · intro hs
    rw [hs]
    simp

/-- The partial merge observed at the spec's concrete example: after
`{success:true, data:{x:12, y:5}}`, x and y are overwritten and the name is
kept. -/
theorem C1_action_result_partial_merge_witness :
    sLive.avatar = some avatar0 ∧ fMove.success = true ∧
    handle_ws_message sLive fMove =
      ({ sLive with avatar := some {
          x := some 12, y := some 5, name := some "Bot1", state := none } }, none) := by
  refine ⟨rfl, rfl, ?_⟩
  exact (C1_action_result_partial_merge sLive avatar0 fMove rfl rfl).1 rfl

/-- C2: an inbound `AUTH_SUCCESS` frame populates the mirror wholesale — the
avatar, wallet and license become exactly the payload's fields — and the
session phase becomes live-connected (`connected` is set); `world_state` and
every other field of the state are untouched. -/
theorem C2_auth_success_populates (s : AgentState) (f : Frame)
    (hty : f.type = some "AUTH_SUCCESS") :
    (handle_ws_message s f).1 =
      { s with connected := true, avatar := f.avatar,
               wallet := f.wallet, license := f.license } := by
  unfold handle_ws_message
  rw [hty]
  simp only [reduceIte]
  cases f.avatar <;> rfl

/-- The wholesale populate at the spec's concrete example payload
`{avatar:{x:10, y:5, name:"Bot1"}, wallet:{cc:0}}`. -/
theorem C2_auth_success_populates_witness :
    fAuthOk.type = some "AUTH_SUCCESS" ∧
    (handle_ws_message sAuthed fAuthOk).1 =
      { sAuthed with connected := true, avatar := some avatar0,
                     wallet := some (JVal.num 0), license := none } :=
  ⟨rfl, C2_auth_success_populates sAuthed fAuthOk rfl⟩

/-- C3: every action dispatch (move, interact, read-notices, accept-quest,
celebrate) invoked while the session is not live-connected returns the
not-connected failure and performs no outbound send on the live channel. -/
theorem C3_actions_require_connection (s : AgentState) (x y : Int)
    (sid bid : Option String) (qid : String) (h : s.connected = false) :
    move_to s x y = ((false, "Not connected"), []) ∧
    interact_with s sid bid = ((false, "Not connected"), []) ∧
    read_notices s = ((false, "Not connected"), []) ∧
    accept_quest s qid = ((false, "Not connected"), []) ∧
    celebrate s = ((false, "Not connected"), []) := by
  simp [move_to, interact_with, read_notices, accept_quest, celebrate, h]

/-- Action dispatch refused at a concrete authenticated-but-not-live state. -/
theorem C3_actions_require_connection_witness :
    sAuthed.connected = false ∧
    move_to sAuthed 3 4 = ((false, "Not connected"), []) ∧
    celebrate sAuthed = ((false, "Not connected"), []) := by
  have h := C3_actions_require_connection sAuthed 3 4 none none "q1" rfl
  exact ⟨rfl, h.1, h.2.2.2.2⟩

/-- C4 fails on the code: at a concrete registered, not-yet-connected state
with no handshake frame arriving within the bounded wait, the attempt is
reported as failed but the channel is NOT torn down — `_running` stays true,
so the background receive loop keeps going. -/
theorem C4_counterexample :
    (connect_websocket sAuthed []).1.1 = false ∧
    channel_torn_down (connect_websocket sAuthed []).2.1 = false := by
  exact ⟨rfl, rfl⟩

/-- C4 (amended): a connection attempt by a registered, not-yet-connected
agent in which no frame of the bounded wait completes the handshake returns
the connection-timeout failure, but the channel is NOT torn down: `_running`
remains true and the background receive-loop thread remains spawned, so
connection activity from that attempt continues until an explicit
disconnect. -/
theorem C4_amended_timeout_no_teardown (s : AgentState) (inbound : List Frame)
    (c : Credentials) (hc : s.credentials = some c) (hnc : s.connected = false)
    (hfail : (handle_frames { s with ws := true, running := true, ws_thread := true }
        inbound).connected = false) :
    (connect_websocket s inbound).1 = (false, "Connection timeout") ∧
    (connect_websocket s inbound).2.1.running = true ∧
    (connect_websocket s inbound).2.1.ws_thread = true ∧
    channel_torn_down (connect_websocket s inbound).2.1 = false := by
  have hrun : (handle_frames { s with ws := true, running := true, ws_thread := true }
      inbound).running = true := by
    rw [handle_frames_running]
  have hth : (handle_frames { s with ws := true, running := true, ws_thread := true }
      inbound).ws_thread = true := by
    rw [handle_frames_ws_thread]
  rw [hc, hnc] at hfail hrun hth
  unfold connect_websocket channel_torn_down
  rw [hc]
  simp [HAS_WEBSOCKET, hnc, hfail, hrun, hth]

/-- The timeout-without-teardown behavior observed on a concrete attempt that
only receives an unrecognized frame. -/
theorem C4_amended_timeout_no_teardown_witness :
    sAuthed.credentials = some creds0 ∧ sAuthed.connected = false ∧
    (connect_websocket sAuthed [fFuture]).1 = (false, "Connection timeout") ∧
    (connect_websocket sAuthed [fFuture]).2.1.running = true := by
  have h := C4_amended_timeout_no_teardown sAuthed [fFuture] creds0 rfl rfl (by rfl)
  exact ⟨rfl, rfl, h.1, h.2.1⟩

/-- C5 fails on the code: at a concrete live state whose channel then closes
(`on_close` fires; disconnect is never called), the `_ws_run` loop guard still
holds, so the loop initiates a fresh `run_forever` connection attempt on its
own — an automatic reconnection the claim says never happens. -/
theorem C5_counterexample :
    (on_close sLive).connected = false ∧
    ws_run_retries (on_close sLive) = true :=
  ⟨rfl, rfl⟩

/-- C5 (amended): after the channel closes, the receive loop re-invokes
`run_forever` — a fresh connection attempt — exactly when `_running` is still
true, i.e. whenever `disconnect_websocket` has not been called since the
channel opened; after a `disconnect_websocket` the guard is false and no
reconnection attempt occurs. -/
theorem C5_amended_retry_unless_disconnected (s : AgentState) :
    ws_run_retries (on_close s) = s.running ∧
    ws_run_retries (disconnect_websocket s) = false :=
  ⟨rfl, rfl⟩

/-- C6: an inbound frame whose `type` is none of the six recognized kinds is
ignored: the handler raises no exception, changes no mirror field (avatar,
wallet, license, world) and leaves the session phase alone — the state is
returned identical. -/
theorem C6_unknown_frames_ignored (s : AgentState) (f : Frame)
    (h1 : f.type ≠ some "AUTH_SUCCESS") (h2 : f.type ≠ some "AUTH_FAILED")
    (h3 : f.type ≠ some "ACTION_RESULT") (h4 : f.type ≠ some "WORLD_STATE")
    (h5 : f.type ≠ some "AVATAR_UPDATE") (h6 : f.type ≠ some "LEDGER_EVENT") :
    handle_ws_message s f = (s, none) := by
  unfold handle_ws_message
  simp [h1, h2, h3, h4, h5, h6]

/-- The spec's `{type:"FUTURE_EVENT"}` example frame observed to be a no-op on
a concrete live state. -/
theorem C6_unknown_frames_ignored_witness :
    fFuture.type = some "FUTURE_EVENT" ∧
    handle_ws_message sLive fFuture = (sLive, none) := by
  refine ⟨rfl, ?_⟩
  exact C6_unknown_frames_ignored sLive fFuture (by decide) (by decide) (by decide)
    (by decide) (by decide) (by decide)

/-- C7: disconnect always succeeds from any session state and is idempotent —
a second disconnect is a no-op leaving exactly the state of the first, and
after disconnecting the phase is not live-connected. -/
theorem C7_disconnect_idempotent (s : AgentState) :
    disconnect_websocket (disconnect_websocket s) = disconnect_websocket s ∧
    (disconnect_websocket s).connected = false := by
  cases s
  exact ⟨rfl, rfl⟩

/-- C8: the bootstrap succeeds exactly when credentials are stored or
registration succeeds, and authentication succeeds — equivalently, it fails
exactly when registration (attempted only without a stored identity) or
authentication fails.  The handshake frames `wsInbound` do not appear in the
right-hand side: a live-channel failure is non-fatal and the bootstrap still
returns success, leaving request/response operations usable. -/
theorem C8_bootstrap_failure_iff (s : AgentState) (env : BootEnv) :
    (ensure_connected s env).1.1 = ((env.stored.isSome || env.regOk) && env.authOk) := by
  rcases env with ⟨stored, regOk, rc, rm, authOk, aav, am, wsin, so, sw, sl, sav, cz⟩
  cases stored <;> cases regOk <;> cases authOk <;>
    simp [ensure_connected, load_credentials, register, authenticate]

/-- C9: the handler is not total over decodable frames: an `AUTH_SUCCESS`
frame whose payload lacks an avatar makes the success log line raise
`AttributeError`, and an `ACTION_RESULT` frame with truthy success and an `x`
field handled while the avatar mirror is still unset raises `TypeError` at the
item assignment. -/
theorem C9_handler_raises :
    sFresh.avatar = none ∧
    (handle_ws_message sFresh fAuthNoAvatar).2 = some PyError.attributeError ∧
    (handle_ws_message sFresh fActionX).2 = some PyError.typeError := by
  refine ⟨rfl, ?_, ?_⟩ <;> rfl

/-- C10: opening the live channel while already live-connected is an
idempotent no-op: it returns success with the already-connected message, every
session and mirror field is returned unchanged, and nothing is sent — no
second channel, no second receive loop, no re-sent auth frame. -/
theorem C10_connect_when_connected (s : AgentState) (inbound : List Frame)
    (c : Credentials) (hc : s.credentials = some c) (h : s.connected = true) :
    connect_websocket s inbound = ((true, "Already connected"), s, []) := by
  unfold connect_websocket
  rw [hc]
  simp [HAS_WEBSOCKET, h]

/-- The connected no-op observed at a concrete live state, even with an
`AUTH_SUCCESS` frame available on the channel. -/
theorem C10_connect_when_connected_witness :
    sLive.connected = true ∧
    connect_websocket sLive [fAuthOk] = ((true, "Already connected"), sLive, []) :=
  ⟨rfl, C10_connect_when_connected sLive [fAuthOk] creds0 rfl rfl⟩
